import Mathlib

set_option maxRecDepth 10000

/-!
Verification of the DNS query builder in src/main.rs.

The program builds one DNS request buffer: a 12-byte header (the packed
struct DnsHeader reinterpreted as raw bytes via as_u8_slice), the
length-prefixed label encoding of the query string, and the big-endian
type and class codes.  We embed the buffer construction of main
(lines 102-126) as pure functions on lists of byte values (Nat, each
value < 256 where the code writes a byte).

The struct is written to the wire through its raw memory, so the byte
order of each u16 field is the native machine order; every definition
takes a flag le that is true on a little-endian host and false on a
big-endian one, and theorems quantify over it where the behaviour does
not depend on it.
-/

/-- Bytes of a 16-bit value as laid out in native memory: a little-endian
host stores the low byte first, a big-endian host the high byte first. -/
def u16NativeBytes (le : Bool) (x : Nat) : List Nat :=
  if le then [x % 256, x / 256 % 256] else [x / 256 % 256, x % 256]

/-- Rust u16::to_be (src/main.rs lines 107-108): byte-swap of the 16-bit
value on a little-endian host, identity on a big-endian host. -/
def to_be (le : Bool) (x : Nat) : Nat :=
  if le then (x % 256) * 256 + (x / 256 % 256) else x % 65536

/-- Rust u16::to_be_bytes (src/main.rs lines 125-126): the big-endian
bytes of a 16-bit value, most significant byte first. -/
def to_be_bytes (x : Nat) : List Nat :=
  [x / 256 % 256, x % 256]

/-- DnsHeader (src/main.rs lines 19-28): repr(packed) struct of six u16
fields, asserted by the source to occupy exactly 12 bytes. -/
structure DnsHeader where
  id : Nat
  flags : Nat
  qcount : Nat
  ancount : Nat
  nscount : Nat
  arcount : Nat

/-- DnsHeaderFlags::RESPONSE (src/main.rs line 35). -/
def RESPONSE : Nat := 0x1

/-- DnsHeaderFlags::RECURSION_DESIRED (src/main.rs line 37). -/
def RECURSION_DESIRED : Nat := 0x100

/-- Type::A as u16 (src/main.rs line 45). -/
def Type_A : Nat := 1

/-- Class::IN as u16 (src/main.rs line 67). -/
def Class_IN : Nat := 1

/-- as_u8_slice (src/main.rs lines 73-75) applied to a DnsHeader: the raw
memory of the packed struct, its six u16 fields in declaration order,
each in native byte order, with no padding (repr(packed)). -/
def as_u8_slice (le : Bool) (h : DnsHeader) : List Nat :=
  u16NativeBytes le h.id ++ u16NativeBytes le h.flags ++
  u16NativeBytes le h.qcount ++ u16NativeBytes le h.ancount ++
  u16NativeBytes le h.nscount ++ u16NativeBytes le h.arcount

/-- Rust str::split('.') at the byte level (src/main.rs line 117): splits
the query byte sequence at each 46 ('.').  Like split in Rust, it always
yields at least one piece, and the empty input yields one empty piece. -/
def splitOnDot : List Nat → List (List Nat)
  | [] => [[]]
  | b :: rest =>
    if b = 46 then [] :: splitOnDot rest
    else
      match splitOnDot rest with
      | [] => [[b]]
      | l :: ls => (b :: l) :: ls

/-- The name-encoding loop of main (src/main.rs lines 117-122): for each
label, one length byte (label.len() as u8, a truncating cast, hence
mod 256) followed by the label bytes; then a terminating zero byte. -/
def encodeName (labels : List (List Nat)) : List Nat :=
  (labels.map (fun l => (l.length % 256) :: l)).flatten ++ [0]

/-- The header main constructs (src/main.rs lines 105-110): the id stored
as given (no byte-order conversion in the source), flags and qcount
converted with to_be, the remaining counts Default-initialised to 0. -/
def mkHeader (le : Bool) (id : Nat) : DnsHeader :=
  { id := id
    flags := to_be le RECURSION_DESIRED
    qcount := to_be le 1
    ancount := 0
    nscount := 0
    arcount := 0 }

/-- The complete request buffer main builds (src/main.rs lines 102-126):
header bytes, then the encoded name, then the big-endian A type code and
IN class code.  The construction is total: the source has no failure
path between allocating the buffer and sending it. -/
def build_query (le : Bool) (id : Nat) (query : List Nat) : List Nat :=
  as_u8_slice le (mkHeader le id) ++ encodeName (splitOnDot query) ++
  to_be_bytes Type_A ++ to_be_bytes Class_IN

/-- Byte offset, within the encoded name, of the length byte of label i:
each earlier label contributes one length byte plus its own bytes. -/
def nameOffset (labels : List (List Nat)) (i : Nat) : Nat :=
  ((labels.take i).map (fun l => 1 + l.length)).sum

/-- Models gen_range(lo, hi) from the rand crate at src/main.rs line 106: a
draw r is reduced into the half-open range [lo, hi). -/
def gen_range (lo hi : Nat) (r : Nat) : Nat :=
  lo + r % (hi - lo)

/-- The byte sequence of the string "www.google.com". -/
def wwwGoogleCom : List Nat :=
  [119, 119, 119, 46, 103, 111, 111, 103, 108, 101, 46, 99, 111, 109]

/-! ## Helper lemmas -/

theorem as_u8_slice_length (le : Bool) (h : DnsHeader) :
    (as_u8_slice le h).length = 12 := by
  cases le <;> simp [as_u8_slice, u16NativeBytes]

theorem encodeName_cons (l : List Nat) (ls : List (List Nat)) :
    encodeName (l :: ls) = (l.length % 256) :: (l ++ encodeName ls) := by
  simp [encodeName]

theorem encodeName_length (ls : List (List Nat)) :
    (encodeName ls).length = (ls.map (fun l => 1 + l.length)).sum + 1 := by
  induction ls with
  | nil => rfl
  | cons l ls ih => simp [encodeName_cons, ih]; omega

theorem build_query_drop_12 (le : Bool) (id : Nat) (query : List Nat) :
    (build_query le id query).drop 12 =
      encodeName (splitOnDot query) ++ [0, 1, 0, 1] := by
  rw [build_query,
    show (12 : Nat) = (as_u8_slice le (mkHeader le id)).length from
      (as_u8_slice_length le _).symm]
  rw [List.append_assoc] at *
  simp [to_be_bytes, Type_A, Class_IN]

theorem splitOnDot_replicate_dot (k : Nat) :
    splitOnDot (List.replicate k 46) = List.replicate (k + 1) [] := by
  induction k with
  | zero => rfl
  | succ n ih => simp [List.replicate_succ, splitOnDot, ih]

theorem encodeName_replicate_nil (n : Nat) :
    encodeName (List.replicate n []) = List.replicate (n + 1) 0 := by
  induction n with
  | zero => rfl
  | succ m ih => simp [List.replicate_succ, encodeName_cons, ih]

theorem encodeName_get (labels : List (List Nat)) :
    ∀ i, (h : i < labels.length) →
      (encodeName labels)[nameOffset labels i]? = some (labels[i].length % 256) := by
  induction labels with
  | nil => intro i h; simp at h
  | cons l ls ih =>
    intro i h
    cases i with
    | zero => simp [encodeName_cons, nameOffset]
    | succ j =>
      have hj : j < ls.length := by simpa using h
      have off : nameOffset (l :: ls) (j + 1) =
          (l.length + nameOffset ls j) + 1 := by
        simp [nameOffset, List.take_succ_cons]
        omega
      rw [encodeName_cons, off, List.getElem?_cons_succ,
        List.getElem?_append_right (by omega)]
      simpa using ih j hj

/-! ## Claims -/

/-- Claim C1: the claim says the first two bytes of the request equal the
big-endian encoding of the transaction id.  The source stores the id into
the packed struct without any byte-order conversion (unlike flags and
qcount, which get to_be), so on a little-endian host the first two bytes
are the low byte then the high byte.  This theorem evaluates the code at
id 0x1234 on a little-endian host: the emitted bytes are 0x34 0x12, not
the 0x12 0x34 the claim requires. -/
theorem C1_id_native_order_bug :
    (build_query true 0x1234 wwwGoogleCom).take 2 = [0x34, 0x12] ∧
    (build_query true 0x1234 wwwGoogleCom).take 2 ≠ [0x12, 0x34] := by
  decide

/-- Claim C2: the claim says a label of 64 or more bytes makes the build
fail with EncodingError.  The source has no failure path at all: it casts
label.len() to u8 and keeps going.  This theorem evaluates the code on a
single 64-byte label: the length byte at offset 12 is emitted as 64 and a
complete buffer of the usual size is produced. -/
theorem C2_no_length_check_bug :
    (build_query true 0 (List.replicate 64 97))[12]? = some 64 ∧
    (build_query true 0 (List.replicate 64 97)).length = 12 + (1 + 64) + 1 + 4 := by
  decide

/-- Claim C3, counterexample: for the empty input the claim says the name
portion is exactly one zero byte, but splitting the empty string yields
one empty label, whose zero length byte is emitted before the terminator:
the name portion is two zero bytes. -/
theorem C3_counterexample :
    encodeName (splitOnDot []) = [0, 0] ∧ encodeName (splitOnDot []) ≠ [0] := by
  decide

/-- Claim C3, amended: for the empty input and for an input of k dots and
nothing else, the encoded name portion is k + 2 zero bytes — one zero
length byte per empty label produced by the split, plus the terminator —
never the single zero byte of the root encoding. -/
theorem C3_separator_only_encoding (k : Nat) :
    encodeName (splitOnDot (List.replicate k 46)) = List.replicate (k + 2) 0 := by
  rw [splitOnDot_replicate_dot, encodeName_replicate_nil]

/-- Claim C4: for every host byte order, transaction id and query, bytes
2-3 of the request buffer are 0x01 0x00 — read big-endian, exactly
RECURSION_DESIRED (0x0100) and no other flag bit. -/
theorem C4_flags_bytes (le : Bool) (id : Nat) (query : List Nat) :
    ((build_query le id query).drop 2).take 2 = to_be_bytes RECURSION_DESIRED := by
  cases le <;>
    simp [build_query, as_u8_slice, mkHeader, u16NativeBytes, to_be, to_be_bytes,
      RECURSION_DESIRED]

/-- Claim C5: for every domain name whose labels are each at most 63
bytes, the request buffer length is 12 plus the sum over labels of
(1 + label length), plus 1 for the terminator, plus 4 for type and
class. -/
theorem C5_total_length (le : Bool) (id : Nat) (query : List Nat)
    (_hlab : ∀ l ∈ splitOnDot query, l.length ≤ 63) :
    (build_query le id query).length =
      12 + ((splitOnDot query).map (fun l => 1 + l.length)).sum + 1 + 4 := by
  simp [build_query, as_u8_slice_length, encodeName_length, to_be_bytes]
  omega

/-- Witness for C5 at query www.google.com on a little-endian host. -/
theorem C5_total_length_witness :
    (∀ l ∈ splitOnDot wwwGoogleCom, l.length ≤ 63) ∧
    (build_query true 0 wwwGoogleCom).length =
      12 + ((splitOnDot wwwGoogleCom).map (fun l => 1 + l.length)).sum + 1 + 4 :=
  ⟨by decide, C5_total_length true 0 wwwGoogleCom (by decide)⟩

/-- Claim C6: for www.google.com the bytes after the 12-byte header are
exactly 3 www 6 google 3 com 0 followed by 00 01 (type A) 00 01 (class
IN); and for every query the builder ends every buffer with those same
type and class codes — the only ones it ever emits. -/
theorem C6_question_bytes (le : Bool) (id : Nat) :
    (build_query le id wwwGoogleCom).drop 12 =
      [3, 119, 119, 119, 6, 103, 111, 111, 103, 108, 101, 3, 99, 111, 109, 0,
       0, 1, 0, 1] ∧
    ∀ query,
      (build_query le id query).drop ((build_query le id query).length - 4) =
        to_be_bytes Type_A ++ to_be_bytes Class_IN := by
  constructor
  · rw [build_query_drop_12]; decide
  · intro q
    have hrw : build_query le id q =
        (as_u8_slice le (mkHeader le id) ++ encodeName (splitOnDot q)) ++
          (to_be_bytes Type_A ++ to_be_bytes Class_IN) := by
      simp [build_query]
    have h4 : (to_be_bytes Type_A ++ to_be_bytes Class_IN).length = 4 := rfl
    rw [hrw, List.length_append, h4, Nat.add_sub_cancel, List.drop_left]

/-- Claim C7: for every host byte order, transaction id and query, the
qcount bytes (offsets 4-5) are 0x00 0x01 and the ancount, nscount and
arcount bytes (offsets 6-11) are all zero. -/
theorem C7_count_bytes (le : Bool) (id : Nat) (query : List Nat) :
    ((build_query le id query).drop 4).take 8 = [0, 1, 0, 0, 0, 0, 0, 0] := by
  cases le <;>
    simp [build_query, as_u8_slice, mkHeader, u16NativeBytes, to_be, to_be_bytes]

/-- Claim C8: the serialized header is exactly 12 bytes, its six 16-bit
fields occupying consecutive two-byte slots with no padding, in the order
id, flags, qcount, ancount, nscount, arcount. -/
theorem C8_header_layout (le : Bool) (h : DnsHeader) :
    (as_u8_slice le h).length = 12 ∧
    (as_u8_slice le h).take 2 = u16NativeBytes le h.id ∧
    ((as_u8_slice le h).drop 2).take 2 = u16NativeBytes le h.flags ∧
    ((as_u8_slice le h).drop 4).take 2 = u16NativeBytes le h.qcount ∧
    ((as_u8_slice le h).drop 6).take 2 = u16NativeBytes le h.ancount ∧
    ((as_u8_slice le h).drop 8).take 2 = u16NativeBytes le h.nscount ∧
    (as_u8_slice le h).drop 10 = u16NativeBytes le h.arcount := by
  cases le <;> exact ⟨rfl, rfl, rfl, rfl, rfl, rfl, rfl⟩

/-- Claim C9: for every label of the split query, of any byte length L,
the length byte emitted at the start of that label inside the encoded
name equals L mod 256 (the truncating u8 cast); construction is total, so
it never fails.  In particular a 300-byte label yields length byte 44. -/
theorem C9_length_byte_mod_256 (query : List Nat) (i : Nat)
    (h : i < (splitOnDot query).length) :
    (encodeName (splitOnDot query))[nameOffset (splitOnDot query) i]? =
      some ((splitOnDot query)[i].length % 256) :=
  encodeName_get (splitOnDot query) i h

/-- Witness for C9 at a single 300-byte label: the length byte is 44. -/
theorem C9_length_byte_mod_256_witness :
    0 < (splitOnDot (List.replicate 300 97)).length ∧
    (encodeName (splitOnDot (List.replicate 300 97)))[
        nameOffset (splitOnDot (List.replicate 300 97)) 0]? = some 44 :=
  ⟨by decide,
    (C9_length_byte_mod_256 (List.replicate 300 97) 0 (by decide)).trans (by decide)⟩

/-- Claim C10: the transaction id drawn at line 106 comes from
gen_range(0, 63335), whose result lies in the half-open range
[0, 63335): every produced id is strictly below 63335, so no id in
[63335, 65535] ever appears. -/
theorem C10_id_below_63335 (r : Nat) : gen_range 0 63335 r < 63335 := by
  have hm : r % 63335 < 63335 := Nat.mod_lt r (by norm_num)
  simpa [gen_range] using hm
